import Mathlib

/-!
Shallow embedding of the global-ban subsystem of SDHS-Bot
(source: src/cogs/disabled/global_ban.py.disabled).

The cog's two slash commands (`global_ban`, `global_unban`) and the
`on_member_join` listener are embedded as pure functions over an explicit
database state, returning a result, the new state, and a trace of the
side-effecting calls they issued (lock, DM, storage, per-guild platform
calls).  `DEBUG_MODE` is `False` in the source, so the embedding follows
the non-debug branches.  Exceptions of the platform client are modelled by
`PlatformResult`: `denied` stands for `discord.Forbidden`/`discord.HTTPException`
(the two classes the cog catches around per-guild calls), `unexpected` for
any other exception (which propagates to the outer handler).
-/

set_option autoImplicit false

namespace GlobalBan

/-- Value of a digit string, as Python `int(...)` computes it on the digits
captured by the regex group. -/
def digitsVal (ds : List Char) : Nat :=
  ds.foldl (fun a c => a * 10 + (c.toNat - 48)) 0

/-- Matching of `^(\d+)([mhd])$` with `re.IGNORECASE` against a token:
the token must be one or more digits followed by a single unit letter.
Returns the two capture groups (digit list, unit char) on success. -/
def durationMatch (s : String) : Option (List Char × Char) :=
  match s.data.reverse with
  | [] => none
  | c :: rest =>
    let ds := rest.reverse
    if !ds.isEmpty && ds.all Char.isDigit &&
        (c.toLower == 'm' || c.toLower == 'h' || c.toLower == 'd') then
      some (ds, c)
    else
      none

/-- `parse_duration` from the source: parse a duration token like
`10m`, `2h`, `1d` into total seconds; `none` models Python `None`. -/
def parse_duration (s : String) : Option Nat :=
  match durationMatch s with
  | none => none
  | some (ds, c) =>
    let val := digitsVal ds
    let unit := c.toLower
    if unit == 'm' then some (val * 60)
    else if unit == 'h' then some (val * 3600)
    else if unit == 'd' then some (val * 86400)
    else none

/-- A row of the global-ban table, as written by `db.add_global_ban`. -/
structure BanEntry where
  discord_user_id : Nat
  roblox_user_id : Option String
  reason : String
  moderator_discord_id : Nat
  expires_at : Option Nat
  deriving DecidableEq, Repr

/-- A case document, as written by `db.add_case` with the `extra` map the
cog passes (`roblox_id`, `roblox_username`, `duration`). -/
structure CaseRecord where
  case_id : Nat
  guild_id : Nat
  user_id : Nat
  moderator_id : Nat
  action_type : String
  reason : String
  extra_roblox_id : Option String
  extra_roblox_username : String
  extra_duration : String
  deriving DecidableEq, Repr

/-- The persistent store: the global-ban table and the append-only case
ledger. -/
structure Db where
  bans : List BanEntry
  cases : List CaseRecord
  deriving DecidableEq, Repr

/-- Modelled from the spec: `upsertBanEntry` of the storage collaborator
(`db.add_global_ban` is not under src/).  Overwrite semantics: at most one
active entry per subject; a new entry for an already-banned subject
replaces the old one. -/
def Db.add_global_ban (db : Db) (uid : Nat) (rid : Option String)
    (reason : String) (mid : Nat) (expires : Option Nat) : Db :=
  { db with bans :=
      ⟨uid, rid, reason, mid, expires⟩ ::
        db.bans.filter (fun b => b.discord_user_id != uid) }

/-- Modelled from the spec: `getBanEntry(userId)` of the storage
collaborator (`db.get_global_ban` is not under src/). -/
def Db.get_global_ban (db : Db) (uid : Nat) : Option BanEntry :=
  db.bans.find? (fun b => b.discord_user_id == uid)

/-- Modelled from the spec: `deleteBanEntry(userId)` of the storage
collaborator (`db.remove_global_ban` is not under src/).  Returns whether
an active entry existed (the caller treats a falsy result as "no active
global ban") together with the store with that subject's entries removed. -/
def Db.remove_global_ban (db : Db) (uid : Nat) : Bool × Db :=
  (db.bans.any (fun b => b.discord_user_id == uid),
   { db with bans := db.bans.filter (fun b => b.discord_user_id != uid) })

/-- Modelled from the spec: `appendCase(...) -> caseId` of the storage
collaborator (`db.add_case` is not under src/).  Append-only; returns a
fresh case id. -/
def Db.add_case (db : Db) (gid uid mid : Nat) (atype reason : String)
    (rid : Option String) (runame : String) (dur : String) : Nat × Db :=
  let cid := db.cases.length + 1
  (cid,
   { db with cases :=
      db.cases ++ [⟨cid, gid, uid, mid, atype, reason, rid, runame, dur⟩] })

/-- Outcome of one platform call against one guild.  `denied` stands for
`discord.Forbidden` or `discord.HTTPException` (caught by the cog around
per-guild ban/unban calls); `unexpected` stands for any other exception
(not caught there, so it propagates to the outer handler). -/
inductive PlatformResult where
  | ok
  | denied
  | unexpected
  deriving DecidableEq, Repr

/-- A guild the bot is a member of, together with the outcomes the
platform would give this invocation's calls against it.  `ban_members`
embeds `g.me.guild_permissions.ban_members`; `members` the ids visible to
`g.get_member`. -/
structure Guild where
  gid : Nat
  name : String
  ban_members : Bool
  members : List Nat
  banResult : PlatformResult
  unbanResult : PlatformResult
  deriving DecidableEq, Repr

/-- Outcome of the Bloxlink identity-enrichment lookup.  `linked rid u`:
HTTP 200 with a `robloxID` field, `u` the name the follow-up
`users.roblox.com` call produced (`none` when that call failed or had no
`name` field).  `noLink`: non-200 status or missing `robloxID`.  `exn`:
the request raised; the cog catches and logs it. -/
inductive BloxlinkOutcome where
  | linked (robloxId : String) (username : Option String)
  | noLink
  | exn
  deriving DecidableEq, Repr

/-- The `(roblox_user_id, roblox_username)` pair the lookup block of
`global_ban` leaves behind: both default to `None`/`"Unknown"` and are
only upgraded on success. -/
def bloxlinkResolve : BloxlinkOutcome → Option String × String
  | .linked rid (some n) => (some rid, n)
  | .linked rid none => (some rid, "Unknown")
  | .noLink => (none, "Unknown")
  | .exn => (none, "Unknown")

/-- Ambient inputs of one invocation: the `BLOXLINK_TOKEN` environment
variable, the enrichment outcome, and `datetime.utcnow()` as seconds. -/
structure Env where
  bloxlinkToken : Option String
  bloxlink : BloxlinkOutcome
  now : Nat
  deriving DecidableEq, Repr

/-- One observable side-effecting call, in issue order. -/
inductive Ev where
  | bloxlinkLookup (uid : Nat)
  | lockAcquire
  | lockRelease
  | dmSend (uid : Nat)
  | dbAddBan (uid : Nat)
  | dbAddCase (uid : Nat)
  | guildBan (gid : Nat) (reason : String)
  | guildUnban (gid : Nat) (reason : String)
  | dbGetBan (uid : Nat)
  | dbRemoveBan (uid : Nat)
  deriving DecidableEq, Repr

/-- What the `/global_ban` command replies with. -/
inductive BanCmdResult where
  | missingToken
  | invalidDuration
  | report (details : List (String × Bool × Bool)) (caseId : Nat)
  | genericFailure
  deriving DecidableEq, Repr

/-- The hack-ban loop of `global_ban` (step 4 in the source): for each
guild where the bot has `ban_members`, record `(g.name, was_in_guild,
success)`; `Forbidden`/`HTTPException` are caught as failure entries, any
other exception aborts the loop (`none`).  Guilds without `ban_members`
are passed over with no entry and no call. -/
def banFanout (uid : Nat) (reason : String) :
    List Guild → Option (List (String × Bool × Bool)) × List Ev
  | [] => (some [], [])
  | g :: gs =>
    if g.ban_members then
      let was_in := g.members.contains uid
      let ev := Ev.guildBan g.gid ("[Global Ban] " ++ reason)
      match g.banResult with
      | .ok =>
        let (rest, evs) := banFanout uid reason gs
        (rest.map (fun l => (g.name, was_in, true) :: l), ev :: evs)
      | .denied =>
        let (rest, evs) := banFanout uid reason gs
        (rest.map (fun l => (g.name, was_in, false) :: l), ev :: evs)
      | .unexpected => (none, [ev])
    else banFanout uid reason gs

/-- The body of `global_ban` after the token and duration checks have
passed: Bloxlink lookup, then under the lock the DM, the ban-table upsert,
the case append and the hack-ban loop; the summary (or the generic
failure, if the loop raised) is sent after the lock is released. -/
def global_ban_core (env : Env) (guilds : List Guild) (db : Db)
    (issuerGuildId uid : Nat) (reason : String) (mid : Nat)
    (duration : Option String) (expires_at : Option Nat) :
    BanCmdResult × Db × List Ev :=
  let rb := bloxlinkResolve env.bloxlink
  let db1 := db.add_global_ban uid rb.1 reason mid expires_at
  let ac := db1.add_case issuerGuildId uid mid "global_ban" reason
      rb.1 rb.2 (duration.getD "indefinite")
  let fan := banFanout uid reason guilds
  let evs := [Ev.bloxlinkLookup uid, Ev.lockAcquire, Ev.dmSend uid,
              Ev.dbAddBan uid, Ev.dbAddCase uid] ++ fan.2 ++ [Ev.lockRelease]
  match fan.1 with
  | some details => (.report details ac.1, ac.2, evs)
  | none => (.genericFailure, ac.2, evs)

/-- The `/global_ban` command: abort if `BLOXLINK_TOKEN` is unset; abort
with the invalid-duration message if a duration is supplied and
`parse_duration` returns a falsy value (`None` or `0`); otherwise run the
core with `expires_at = now + seconds` (or no expiry). -/
def global_ban (env : Env) (guilds : List Guild) (db : Db)
    (issuerGuildId uid : Nat) (reason : String) (mid : Nat)
    (duration : Option String) : BanCmdResult × Db × List Ev :=
  match env.bloxlinkToken with
  | none => (.missingToken, db, [])
  | some _ =>
    match duration with
    | none => global_ban_core env guilds db issuerGuildId uid reason mid none none
    | some d =>
      match parse_duration d with
      | none => (.invalidDuration, db, [])
      | some 0 => (.invalidDuration, db, [])
      | some secs =>
        global_ban_core env guilds db issuerGuildId uid reason mid (some d)
          (some (env.now + secs))

/-- What the `/global_unban` command replies with. -/
inductive UnbanCmdResult where
  | notFound
  | report (details : List (String × Bool))
  | genericFailure
  deriving DecidableEq, Repr

/-- The hack-unban loop of `global_unban`, mirroring `banFanout`. -/
def unbanFanout (uid : Nat) :
    List Guild → Option (List (String × Bool)) × List Ev
  | [] => (some [], [])
  | g :: gs =>
    if g.ban_members then
      let ev := Ev.guildUnban g.gid "[Global Unban]"
      match g.unbanResult with
      | .ok =>
        let (rest, evs) := unbanFanout uid gs
        (rest.map (fun l => (g.name, true) :: l), ev :: evs)
      | .denied =>
        let (rest, evs) := unbanFanout uid gs
        (rest.map (fun l => (g.name, false) :: l), ev :: evs)
      | .unexpected => (none, [ev])
    else unbanFanout uid gs

/-- The `/global_unban` command: issue the ban-table delete; if it removed
an entry, run the hack-unban loop and report, else reply that no active
global ban was found.  No lock is taken anywhere in this command. -/
def global_unban (guilds : List Guild) (db : Db) (uid : Nat) :
    UnbanCmdResult × Db × List Ev :=
  let rem := db.remove_global_ban uid
  if rem.1 then
    let fan := unbanFanout uid guilds
    match fan.1 with
    | some details => (.report details, rem.2, Ev.dbRemoveBan uid :: fan.2)
    | none => (.genericFailure, rem.2, Ev.dbRemoveBan uid :: fan.2)
  else
    (.notFound, rem.2, [Ev.dbRemoveBan uid])

/-- A member as seen by the join listener. -/
structure Member where
  uid : Nat
  isBot : Bool
  guild : Guild
  deriving DecidableEq, Repr

/-- The `on_member_join` listener: bots return at once; otherwise look up
the ban entry; purge it (and stop) when its expiry is in the past; else,
when the bot has `ban_members` in the joined guild, hack-ban with the
`[Global Ban Auto]` reason and then try the DM (skipped when the ban call
raised, since the outer handler catches everything and the DM comes after
the ban). -/
def on_member_join (env : Env) (db : Db) (m : Member) : Db × List Ev :=
  if m.isBot then (db, [])
  else
    match db.get_global_ban m.uid with
    | none => (db, [Ev.dbGetBan m.uid])
    | some doc =>
      let expired : Bool :=
        match doc.expires_at with
        | some t => decide (env.now > t)
        | none => false
      if expired then
        ((db.remove_global_ban m.uid).2, [Ev.dbGetBan m.uid, Ev.dbRemoveBan m.uid])
      else if m.guild.ban_members then
        let ev := Ev.guildBan m.guild.gid ("[Global Ban Auto] " ++ doc.reason)
        match m.guild.banResult with
        | .ok => (db, [Ev.dbGetBan m.uid, ev, Ev.dmSend m.uid])
        | _ => (db, [Ev.dbGetBan m.uid, ev])
      else (db, [Ev.dbGetBan m.uid])

/-! Concrete fixtures used by counterexamples and witnesses. -/

/-- A guild where the bot may ban and user 42 is present. -/
def gA : Guild := ⟨1, "A", true, [42], .ok, .ok⟩

/-- A guild where the bot lacks ban authority. -/
def gB : Guild := ⟨2, "B", false, [42], .ok, .ok⟩

/-- A guild whose ban call raises an unexpected exception. -/
def gU : Guild := ⟨3, "U", true, [], .unexpected, .unexpected⟩

/-- An environment with the token configured and an unlinked subject. -/
def envTok : Env := ⟨some "tok", .noLink, 1000⟩

/-- An environment with `BLOXLINK_TOKEN` unset. -/
def envNoTok : Env := ⟨none, .noLink, 1000⟩

/-- The empty store. -/
def db0 : Db := ⟨[], []⟩

/-- A ban entry for user 42 that expired at time 500. -/
def entry42exp : BanEntry := ⟨42, none, "raiding", 7, some 500⟩

/-- A ban entry for user 42 with no expiry (indefinite). -/
def entry42act : BanEntry := ⟨42, none, "raiding", 7, none⟩

/-- A store holding only the expired entry for user 42. -/
def dbExp : Db := ⟨[entry42exp], []⟩

/-- A store holding only the active entry for user 42. -/
def dbAct : Db := ⟨[entry42act], []⟩

/-- User 42 joining guild A as a bot account. -/
def botMemberA : Member := ⟨42, true, gA⟩

/-- User 42 joining guild A as a regular account. -/
def humanMemberA : Member := ⟨42, false, gA⟩

end GlobalBan

namespace GlobalBan

/-! Helper lemmas shared by the claim theorems. -/

/-- The regex matcher on a token split as digits-part plus final char:
it succeeds exactly when the digits part is nonempty and all digits and
the final char lowercases to one of the three units. -/
theorem durationMatch_append (ds : List Char) (c : Char) :
    durationMatch ⟨ds ++ [c]⟩ =
      if !ds.isEmpty && ds.all Char.isDigit &&
          (c.toLower == 'm' || c.toLower == 'h' || c.toLower == 'd') then
        some (ds, c)
      else none := by
  unfold durationMatch
  simp only [List.reverse_append, List.reverse_cons, List.reverse_nil, List.nil_append,
    List.cons_append, List.singleton_append, List.reverse_reverse]

/-- Complete characterization of `parse_duration` on any nonempty token,
viewed as its leading characters plus its last character. -/
theorem parse_duration_general (ds : List Char) (c : Char) :
    parse_duration ⟨ds ++ [c]⟩ =
      if ds ≠ [] ∧ (∀ d ∈ ds, d.isDigit) then
        if c.toLower = 'm' then some (digitsVal ds * 60)
        else if c.toLower = 'h' then some (digitsVal ds * 3600)
        else if c.toLower = 'd' then some (digitsVal ds * 86400)
        else none
      else none := by
  rw [parse_duration, durationMatch_append]
  by_cases h1 : ds = []
  · subst h1; simp
  · by_cases h2 : ∀ d ∈ ds, d.isDigit
    · have hb : (!ds.isEmpty && ds.all Char.isDigit) = true := by
        simp [List.isEmpty_iff, h1, List.all_eq_true, h2]
        exact h2
      by_cases hm : c.toLower = 'm'
      · simp [hb, hm, h1, h2] <;> exact h2
      · by_cases hh : c.toLower = 'h'
        · simp [hb, hm, hh, h1, h2] <;> exact h2
        · by_cases hd : c.toLower = 'd'
          · simp [hb, hm, hh, hd, h1, h2] <;> exact h2
          · simp [hb, hm, hh, hd, h1, h2] <;> exact h2
    · have hb : (ds.all Char.isDigit) = false := by
        simp [List.all_eq_true] at h2 ⊢
        exact h2
      simp [hb, h2]

/-- Deleting the row of a subject that has no entry is a no-op. -/
theorem remove_global_ban_absent (db : Db) (uid : Nat)
    (h : db.get_global_ban uid = none) :
    db.remove_global_ban uid = (false, db) := by
  rw [Db.get_global_ban, List.find?_eq_none] at h
  have hany : db.bans.any (fun b => b.discord_user_id == uid) = false := by
    rw [List.any_eq_false]
    intro b hb
    exact h b hb
  have hfil : db.bans.filter (fun b => b.discord_user_id != uid) = db.bans := by
    rw [List.filter_eq_self]
    intro b hb
    have hf : (b.discord_user_id == uid) = false := Bool.eq_false_iff.mpr (h b hb)
    simp [bne, hf]
  rw [Db.remove_global_ban, hany, hfil]

/-- When no guild's ban call raises an unexpected exception, the hack-ban
loop completes and its report and calls are exactly one per guild with
`ban_members`, in order. -/
theorem banFanout_complete (uid : Nat) (r : String) :
    ∀ gs : List Guild, (∀ g ∈ gs, g.banResult ≠ PlatformResult.unexpected) →
      banFanout uid r gs =
        (some ((gs.filter (fun g => g.ban_members)).map
           (fun g => (g.name, g.members.contains uid, g.banResult == PlatformResult.ok))),
         (gs.filter (fun g => g.ban_members)).map
           (fun g => Ev.guildBan g.gid ("[Global Ban] " ++ r)))
  | [], _ => rfl
  | g :: gs, h => by
    have hg := h g (List.mem_cons_self g gs)
    have hgs : ∀ g2 ∈ gs, g2.banResult ≠ PlatformResult.unexpected :=
      fun g2 hm => h g2 (List.mem_cons_of_mem g hm)
    have ih := banFanout_complete uid r gs hgs
    by_cases hb : g.ban_members
    · cases hr : g.banResult with
      | ok => simp [banFanout, hb, hr, List.filter_cons, ih]
      | denied => simp [banFanout, hb, hr, List.filter_cons, ih]
      | unexpected => exact absurd hr hg
    · simp [banFanout, hb, List.filter_cons, ih]

/-- The hack-unban loop never touches the lock. -/
theorem unbanFanout_no_lock (uid : Nat) :
    ∀ gs : List Guild, Ev.lockAcquire ∉ (unbanFanout uid gs).2
  | [] => by simp [unbanFanout]
  | g :: gs => by
    have ih := unbanFanout_no_lock uid gs
    rcases hfan : unbanFanout uid gs with ⟨fan, evs⟩
    rw [hfan] at ih
    simp at ih
    by_cases hb : g.ban_members
    · cases hr : g.unbanResult with
      | ok => simp [unbanFanout, hb, hr, hfan]; exact ih
      | denied => simp [unbanFanout, hb, hr, hfan]; exact ih
      | unexpected => simp [unbanFanout, hb, hr]
    · simp [unbanFanout, hb, hfan]; exact ih

/-- Once the command body runs, its reply is a report or the generic
failure, never the invalid-duration message. -/
theorem global_ban_core_shape (env : Env) (guilds : List Guild) (db : Db)
    (igid uid : Nat) (reason : String) (mid : Nat) (dur : Option String)
    (expires : Option Nat) :
    (global_ban_core env guilds db igid uid reason mid dur expires).1 ≠
      BanCmdResult.invalidDuration := by
  rcases hfan : banFanout uid reason guilds with ⟨f1, evs⟩
  cases f1 <;> simp [global_ban_core, hfan]

/-- After deleting a subject's row, lookups for that subject return
nothing. -/
theorem get_global_ban_remove (db : Db) (uid : Nat) :
    ((db.remove_global_ban uid).2).get_global_ban uid = none := by
  rw [Db.remove_global_ban, Db.get_global_ban]
  rw [List.find?_eq_none]
  intro b hb
  rw [List.mem_filter] at hb
  have h2 := hb.2
  simp only [bne_iff_ne, ne_eq] at h2
  simp [h2]

/-! Claim theorems. -/

/-- C5: `parse_duration` maps a token of digits `N` followed by a unit
letter (case-insensitively) to `N*60` seconds for `m`, `N*3600` for `h`,
`N*86400` for `d`, and rejects every other token; concretely `2h` gives
7200, `10m` gives 600, `3D` gives 259200, and `""`, `abc` and `5x` are
rejected. -/
theorem parse_duration_spec :
    (∀ (ds : List Char) (c : Char),
      parse_duration ⟨ds ++ [c]⟩ =
        if ds ≠ [] ∧ (∀ d ∈ ds, d.isDigit) then
          if c.toLower = 'm' then some (digitsVal ds * 60)
          else if c.toLower = 'h' then some (digitsVal ds * 3600)
          else if c.toLower = 'd' then some (digitsVal ds * 86400)
          else none
        else none) ∧
    parse_duration "" = none ∧
    parse_duration "2h" = some 7200 ∧
    parse_duration "10m" = some 600 ∧
    parse_duration "3D" = some 259200 ∧
    parse_duration "abc" = none ∧
    parse_duration "5x" = none :=
  ⟨parse_duration_general, by decide, by decide, by decide, by decide, by decide, by decide⟩

/-- C1, counterexample: with the bot in guilds `A` (ban authority) and `B`
(no ban authority), the report of `global_ban` holds a single entry, for
`A` only — guild `B` is omitted instead of being recorded as
`Unknown`/skipped, refuting the claim that the report has one entry per
guild the bot belonged to. -/
theorem global_ban_report_omits_unauthorized :
    (global_ban envTok [gA, gB] db0 1 42 "raiding" 7 none).1 =
      BanCmdResult.report [("A", true, true)] 1 ∧
    gB.ban_members = false ∧
    ([("A", true, true)].all (fun e => e.1 != "B")) = true := by decide

/-- C1 (amended): when `BLOXLINK_TOKEN` is configured, any supplied
duration parses to a nonzero value, and no guild's ban call raises
unexpectedly, the report of `global_ban` contains exactly one outcome
entry for each guild in which the bot held ban authority at call start,
in order, with no duplicates and no omissions among those; guilds where
the bot lacked ban authority are skipped entirely and produce no entry. -/
theorem global_ban_report_exactly_authorized (env : Env) (guilds : List Guild)
    (db : Db) (igid uid : Nat) (reason : String) (mid : Nat)
    (duration : Option String) (tok : String)
    (htok : env.bloxlinkToken = some tok)
    (hdur : duration = none ∨ ∃ d n, duration = some d ∧ parse_duration d = some (n + 1))
    (hfan : ∀ g ∈ guilds, g.banResult ≠ PlatformResult.unexpected) :
    (global_ban env guilds db igid uid reason mid duration).1 =
      BanCmdResult.report
        ((guilds.filter (fun g => g.ban_members)).map
          (fun g => (g.name, g.members.contains uid, g.banResult == PlatformResult.ok)))
        (db.cases.length + 1) := by
  have hcore : ∀ (dur : Option String) (expires : Option Nat),
      (global_ban_core env guilds db igid uid reason mid dur expires).1 =
        BanCmdResult.report
          ((guilds.filter (fun g => g.ban_members)).map
            (fun g => (g.name, g.members.contains uid, g.banResult == PlatformResult.ok)))
          (db.cases.length + 1) := by
    intro dur expires
    simp [global_ban_core, banFanout_complete uid reason guilds hfan,
      Db.add_case, Db.add_global_ban]
  rcases hdur with h | ⟨d, n, hd, hp⟩
  · subst h
    simp only [global_ban, htok]
    exact hcore none none
  · subst hd
    simp only [global_ban, htok, hp]
    exact hcore (some d) (some (env.now + (n + 1)))

/-- C1, witness: the amended report shape at a concrete two-guild input. -/
theorem global_ban_report_exactly_authorized_witness :
    (global_ban envTok [gA, gB] db0 1 42 "raiding" 7 (some "1d")).1 =
      BanCmdResult.report
        (([gA, gB].filter (fun g => g.ban_members)).map
          (fun g => (g.name, g.members.contains 42, g.banResult == PlatformResult.ok)))
        (db0.cases.length + 1) :=
  global_ban_report_exactly_authorized envTok [gA, gB] db0 1 42 "raiding" 7
    (some "1d") "tok" rfl (Or.inr ⟨"1d", 86399, rfl, by decide⟩) (by decide)

/-- C2, counterexample: with `BLOXLINK_TOKEN` unset, `global_ban` aborts
at once — no BanEntry, no CaseRecord, no DM, no fan-out — refuting the
claim that a missing enrichment token never prevents the operation from
completing. -/
theorem global_ban_missing_token_blocks :
    global_ban envNoTok [gA] db0 1 42 "raiding" 7 none =
      (BanCmdResult.missingToken, db0, []) ∧
    envNoTok.bloxlinkToken = none ∧
    db0.bans = [] ∧ db0.cases = [] := by decide

/-- C2 (amended): provided `BLOXLINK_TOKEN` is configured, failure of the
identity-enrichment lookup itself (timeout, non-200, thrown error,
missing field) never prevents `global_ban` from completing: the BanEntry
is upserted and the CaseRecord appended with the identity recorded as
absent (`none`/`"Unknown"`), and the per-guild fan-out still runs. -/
theorem global_ban_enrichment_isolated (env : Env) (guilds : List Guild)
    (db : Db) (igid uid : Nat) (reason : String) (mid : Nat) (tok : String)
    (htok : env.bloxlinkToken = some tok)
    (henr : env.bloxlink = BloxlinkOutcome.noLink ∨ env.bloxlink = BloxlinkOutcome.exn) :
    ((global_ban env guilds db igid uid reason mid none).2.1.bans =
      ⟨uid, none, reason, mid, none⟩ ::
        db.bans.filter (fun b => b.discord_user_id != uid)) ∧
    ((global_ban env guilds db igid uid reason mid none).2.1.cases =
      db.cases ++
        [⟨db.cases.length + 1, igid, uid, mid, "global_ban", reason, none, "Unknown",
          "indefinite"⟩]) ∧
    ((global_ban env guilds db igid uid reason mid none).2.2 =
      [Ev.bloxlinkLookup uid, Ev.lockAcquire, Ev.dmSend uid, Ev.dbAddBan uid,
       Ev.dbAddCase uid] ++ (banFanout uid reason guilds).2 ++ [Ev.lockRelease]) := by
  have hres : bloxlinkResolve env.bloxlink = (none, "Unknown") := by
    rcases henr with h | h <;> rw [h] <;> rfl
  rcases hfan : banFanout uid reason guilds with ⟨f1, evs⟩
  cases f1 <;>
    simp [global_ban, htok, global_ban_core, hres, hfan, Db.add_global_ban, Db.add_case]

/-- C2, witness: the enrichment-failure isolation at a concrete input. -/
theorem global_ban_enrichment_isolated_witness :
    ((global_ban envTok [gA] db0 1 42 "raiding" 7 none).2.1.bans =
      ⟨42, none, "raiding", 7, none⟩ ::
        db0.bans.filter (fun b => b.discord_user_id != 42)) ∧
    ((global_ban envTok [gA] db0 1 42 "raiding" 7 none).2.1.cases =
      db0.cases ++
        [⟨db0.cases.length + 1, 1, 42, 7, "global_ban", "raiding", none, "Unknown",
          "indefinite"⟩]) ∧
    ((global_ban envTok [gA] db0 1 42 "raiding" 7 none).2.2 =
      [Ev.bloxlinkLookup 42, Ev.lockAcquire, Ev.dmSend 42, Ev.dbAddBan 42,
       Ev.dbAddCase 42] ++ (banFanout 42 "raiding" [gA]).2 ++ [Ev.lockRelease]) :=
  global_ban_enrichment_isolated envTok [gA] db0 1 42 "raiding" 7 "tok" rfl (Or.inl rfl)

/-- C3, counterexample: a `global_unban` run that deletes the registry
row and issues a platform unban call contains no lock acquisition in its
trace, refuting the claim that `global_unban` takes the ban lock before
its side effects. -/
theorem global_unban_runs_unlocked :
    (global_unban [gA] dbAct 42).2.2 =
      [Ev.dbRemoveBan 42, Ev.guildUnban 1 "[Global Unban]"] ∧
    Ev.lockAcquire ∉ (global_unban [gA] dbAct 42).2.2 := by decide

/-- C3 (amended): `global_unban` performs all of its side effects without
ever acquiring the process-wide ban lock, while `global_ban`'s body
acquires the lock before the DM, the registry upsert, the ledger append
and the fan-out, and releases it afterwards — so ban and unban fan-outs
are not mutually excluded. -/
theorem lock_discipline :
    (∀ (guilds : List Guild) (db : Db) (uid : Nat),
      Ev.lockAcquire ∉ (global_unban guilds db uid).2.2) ∧
    (∀ (env : Env) (guilds : List Guild) (db : Db) (igid uid : Nat)
        (reason : String) (mid : Nat) (dur : Option String) (expires : Option Nat),
      (global_ban_core env guilds db igid uid reason mid dur expires).2.2 =
        [Ev.bloxlinkLookup uid, Ev.lockAcquire, Ev.dmSend uid, Ev.dbAddBan uid,
         Ev.dbAddCase uid] ++ (banFanout uid reason guilds).2 ++ [Ev.lockRelease]) := by
  constructor
  · intro guilds db uid
    have hnl := unbanFanout_no_lock uid guilds
    rcases hfan : unbanFanout uid guilds with ⟨f1, evs⟩
    rw [hfan] at hnl
    simp only at hnl
    rcases hrem : db.remove_global_ban uid with ⟨r1, db1⟩
    cases r1
    · simp [global_unban, hrem]
    · cases f1 <;> simp [global_unban, hrem, hfan] <;> exact hnl
  · intro env guilds db igid uid reason mid dur expires
    rcases hfan : banFanout uid reason guilds with ⟨f1, evs⟩
    cases f1 <;> simp [global_ban_core, hfan]

/-- C4, counterexample: `0m` matches `^(\d+)([mhd])$` yet `global_ban`
rejects it with the validation error (Python treats the parsed 0 seconds
as falsy), and a malformed duration together with a missing
`BLOXLINK_TOKEN` yields the token error instead of the validation error —
refuting both directions of the claimed iff. -/
theorem global_ban_duration_zero_cex :
    (durationMatch "0m").isSome = true ∧
    global_ban envTok [gA] db0 1 42 "raiding" 7 (some "0m") =
      (BanCmdResult.invalidDuration, db0, []) ∧
    (global_ban envNoTok [gA] db0 1 42 "raiding" 7 (some "abc")).1 =
      BanCmdResult.missingToken := by decide

/-- C4 (amended): provided `BLOXLINK_TOKEN` is configured, `global_ban`
fails with the validation error iff a duration token is supplied whose
parse yields no match or zero seconds; and whenever it so fails, no side
effect has occurred: the store is unchanged and the trace is empty (no
DM, no BanEntry upsert, no CaseRecord, no platform ban call). -/
theorem global_ban_validation_iff (env : Env) (guilds : List Guild) (db : Db)
    (igid uid : Nat) (reason : String) (mid : Nat) (duration : Option String)
    (tok : String) (htok : env.bloxlinkToken = some tok) :
    ((global_ban env guilds db igid uid reason mid duration).1 =
        BanCmdResult.invalidDuration ↔
      ∃ d, duration = some d ∧
        (parse_duration d = none ∨ parse_duration d = some 0)) ∧
    ((global_ban env guilds db igid uid reason mid duration).1 =
        BanCmdResult.invalidDuration →
      global_ban env guilds db igid uid reason mid duration =
        (BanCmdResult.invalidDuration, db, [])) := by
  cases duration with
  | none =>
    simp only [global_ban, htok]
    constructor
    · constructor
      · intro h
        exact absurd h (global_ban_core_shape env guilds db igid uid reason mid none none)
      · rintro ⟨d, hd, _⟩
        exact Option.noConfusion hd
    · intro h
      exact absurd h (global_ban_core_shape env guilds db igid uid reason mid none none)
  | some d =>
    rcases hp : parse_duration d with _ | k
    · have heq : global_ban env guilds db igid uid reason mid (some d) =
          (BanCmdResult.invalidDuration, db, []) := by
        simp only [global_ban, htok, hp]
      rw [heq]
      exact ⟨⟨fun _ => ⟨d, rfl, Or.inl hp⟩, fun _ => rfl⟩, fun _ => rfl⟩
    · cases k with
      | zero =>
        have heq : global_ban env guilds db igid uid reason mid (some d) =
            (BanCmdResult.invalidDuration, db, []) := by
          simp only [global_ban, htok, hp]
        rw [heq]
        exact ⟨⟨fun _ => ⟨d, rfl, Or.inr hp⟩, fun _ => rfl⟩, fun _ => rfl⟩
      | succ n =>
        have heq : global_ban env guilds db igid uid reason mid (some d) =
            global_ban_core env guilds db igid uid reason mid (some d)
              (some (env.now + (n + 1))) := by
          simp only [global_ban, htok, hp]
        rw [heq]
        constructor
        · constructor
          · intro h
            exact absurd h (global_ban_core_shape env guilds db igid uid reason mid
              (some d) (some (env.now + (n + 1))))
          · rintro ⟨d2, hd2, hbad⟩
            rw [Option.some_inj] at hd2
            subst hd2
            rcases hbad with hb2 | hb2 <;> rw [hp] at hb2 <;> simp at hb2
        · intro h
          exact absurd h (global_ban_core_shape env guilds db igid uid reason mid
            (some d) (some (env.now + (n + 1))))

/-- C4, witness: the amended validation condition at the `0m` input. -/
theorem global_ban_validation_iff_witness :
    ((global_ban envTok [gA] db0 1 42 "raiding" 7 (some "0m")).1 =
        BanCmdResult.invalidDuration ↔
      ∃ d, (some "0m" : Option String) = some d ∧
        (parse_duration d = none ∨ parse_duration d = some 0)) ∧
    ((global_ban envTok [gA] db0 1 42 "raiding" 7 (some "0m")).1 =
        BanCmdResult.invalidDuration →
      global_ban envTok [gA] db0 1 42 "raiding" 7 (some "0m") =
        (BanCmdResult.invalidDuration, db0, [])) :=
  global_ban_validation_iff envTok [gA] db0 1 42 "raiding" 7 (some "0m") "tok" rfl

/-- C6: for a subject with no active BanEntry, `global_unban` replies
"not found", issues zero platform unban calls, produces no per-guild
report, and leaves the store unchanged (the existence check is the delete
call itself, which removes nothing). -/
theorem global_unban_never_banned (guilds : List Guild) (db : Db) (uid : Nat)
    (h : db.get_global_ban uid = none) :
    global_unban guilds db uid = (UnbanCmdResult.notFound, db, [Ev.dbRemoveBan uid]) := by
  simp [global_unban, remove_global_ban_absent db uid h]

/-- C6, witness: the not-found reply on the empty store. -/
theorem global_unban_never_banned_witness :
    global_unban [gA] db0 42 =
      (UnbanCmdResult.notFound, db0, [Ev.dbRemoveBan 42]) :=
  global_unban_never_banned [gA] db0 42 rfl

/-- C7, counterexample: a bot account joining with an expired BanEntry is
returned from immediately — the expired entry is not deleted — refuting
the claim for every join event. -/
theorem rejoin_expired_bot_ignored :
    botMemberA.isBot = true ∧
    dbExp.get_global_ban 42 = some entry42exp ∧
    entry42exp.expires_at = some 500 ∧
    envTok.now > 500 ∧
    on_member_join envTok dbExp botMemberA = (dbExp, []) ∧
    (on_member_join envTok dbExp botMemberA).1.get_global_ban 42 =
      some entry42exp := by decide

/-- C7 (amended): on every join event where the joining member is not a
bot account and their BanEntry has `expires_at` set with the current time
past it, the listener deletes the BanEntry and issues no ban. -/
theorem rejoin_purges_expired (env : Env) (db : Db) (m : Member) (e : BanEntry)
    (t : Nat) (hb : m.isBot = false) (hget : db.get_global_ban m.uid = some e)
    (hexp : e.expires_at = some t) (hnow : env.now > t) :
    on_member_join env db m =
      ((db.remove_global_ban m.uid).2, [Ev.dbGetBan m.uid, Ev.dbRemoveBan m.uid]) ∧
    ((on_member_join env db m).1.get_global_ban m.uid = none) ∧
    (∀ gid r, Ev.guildBan gid r ∉ (on_member_join env db m).2) := by
  have hdec : decide (env.now > t) = true := decide_eq_true hnow
  have hmain : on_member_join env db m =
      ((db.remove_global_ban m.uid).2, [Ev.dbGetBan m.uid, Ev.dbRemoveBan m.uid]) := by
    simp [on_member_join, hb, hget, hexp, hdec]
  refine ⟨hmain, ?_, ?_⟩
  · rw [hmain]
    exact get_global_ban_remove db m.uid
  · intro gid r
    rw [hmain]
    simp

/-- C7, witness: the lazy purge for a regular member at a concrete
expired entry. -/
theorem rejoin_purges_expired_witness :
    on_member_join envTok dbExp humanMemberA =
      ((dbExp.remove_global_ban 42).2, [Ev.dbGetBan 42, Ev.dbRemoveBan 42]) ∧
    ((on_member_join envTok dbExp humanMemberA).1.get_global_ban 42 = none) ∧
    (∀ gid r, Ev.guildBan gid r ∉ (on_member_join envTok dbExp humanMemberA).2) :=
  rejoin_purges_expired envTok dbExp humanMemberA entry42exp 500 rfl rfl rfl (by decide)

/-- C8, counterexample: a bot account joining with an active, unexpired
BanEntry in a guild where the bot has ban authority is not banned at all
— refuting the claim for every join event. -/
theorem rejoin_active_bot_ignored :
    botMemberA.isBot = true ∧
    dbAct.get_global_ban 42 = some entry42act ∧
    entry42act.expires_at = none ∧
    gA.ban_members = true ∧
    on_member_join envTok dbAct botMemberA = (dbAct, []) := by decide

/-- C8 (amended): on every join event where the joining member is not a
bot account, holds an active unexpired BanEntry, and the bot has ban
authority in the joined guild, the listener issues a ban in that guild
whose reason embeds the original ban reason, and writes no new
CaseRecord (the ledger is untouched and no case-append call is made). -/
theorem rejoin_enforces_active (env : Env) (db : Db) (m : Member) (e : BanEntry)
    (hb : m.isBot = false) (hget : db.get_global_ban m.uid = some e)
    (hexp : e.expires_at = none ∨ ∃ t, e.expires_at = some t ∧ ¬ env.now > t)
    (hperm : m.guild.ban_members = true) :
    (Ev.guildBan m.guild.gid ("[Global Ban Auto] " ++ e.reason) ∈
      (on_member_join env db m).2) ∧
    (on_member_join env db m).1 = db ∧
    (∀ uid2, Ev.dbAddCase uid2 ∉ (on_member_join env db m).2) := by
  have hdec : (match e.expires_at with
      | some t => decide (env.now > t)
      | none => false) = false := by
    rcases hexp with h | ⟨t, ht, hnt⟩
    · rw [h]
    · rw [ht]
      simpa using hnt
  cases hr : m.guild.banResult <;>
    simp [on_member_join, hb, hget, hdec, hperm, hr]

/-- C8, witness: the automatic re-ban for a regular member at a concrete
active entry. -/
theorem rejoin_enforces_active_witness :
    (Ev.guildBan 1 ("[Global Ban Auto] " ++ entry42act.reason) ∈
      (on_member_join envTok dbAct humanMemberA).2) ∧
    (on_member_join envTok dbAct humanMemberA).1 = dbAct ∧
    (∀ uid2, Ev.dbAddCase uid2 ∉ (on_member_join envTok dbAct humanMemberA).2) :=
  rejoin_enforces_active envTok dbAct humanMemberA entry42act rfl rfl (Or.inl rfl) rfl

/-- C9: when the joining member is a bot account, the listener returns
immediately: the store is untouched and the trace is empty — the Ban
Registry is never consulted, no ban is issued, no expired entry is
purged, and no DM is sent. -/
theorem on_member_join_bot_noop (env : Env) (db : Db) (m : Member)
    (hb : m.isBot = true) : on_member_join env db m = (db, []) := by
  simp [on_member_join, hb]

/-- C9, witness: the bot early-return at a concrete banned bot member. -/
theorem on_member_join_bot_noop_witness :
    on_member_join envTok dbExp botMemberA = (dbExp, []) :=
  on_member_join_bot_noop envTok dbExp botMemberA rfl

/-- C10: `global_ban` is not atomic under unexpected failures — the
BanEntry upsert and the CaseRecord append happen before the per-guild
fan-out (visible in the trace order), and when the fan-out raises
unexpectedly there is no rollback: the BanEntry and the appended
CaseRecord remain in the store while the caller gets the generic failure
reply. -/
theorem global_ban_no_rollback (env : Env) (guilds : List Guild) (db : Db)
    (igid uid : Nat) (reason : String) (mid : Nat) (tok : String)
    (htok : env.bloxlinkToken = some tok)
    (hfail : (banFanout uid reason guilds).1 = none) :
    ((global_ban env guilds db igid uid reason mid none).1 =
      BanCmdResult.genericFailure) ∧
    ((global_ban env guilds db igid uid reason mid none).2.1.bans =
      ⟨uid, (bloxlinkResolve env.bloxlink).1, reason, mid, none⟩ ::
        db.bans.filter (fun b => b.discord_user_id != uid)) ∧
    ((global_ban env guilds db igid uid reason mid none).2.1.cases.length =
      db.cases.length + 1) ∧
    ((global_ban env guilds db igid uid reason mid none).2.2 =
      [Ev.bloxlinkLookup uid, Ev.lockAcquire, Ev.dmSend uid, Ev.dbAddBan uid,
       Ev.dbAddCase uid] ++ (banFanout uid reason guilds).2 ++ [Ev.lockRelease]) := by
  rcases hfan : banFanout uid reason guilds with ⟨f1, evs⟩
  rw [hfan] at hfail
  simp only at hfail
  subst hfail
  simp [global_ban, htok, global_ban_core, hfan, Db.add_global_ban, Db.add_case]

/-- C10, witness: the persisted-but-failed run at a concrete guild whose
ban call raises unexpectedly. -/
theorem global_ban_no_rollback_witness :
    ((global_ban envTok [gA, gU] db0 1 42 "raiding" 7 none).1 =
      BanCmdResult.genericFailure) ∧
    ((global_ban envTok [gA, gU] db0 1 42 "raiding" 7 none).2.1.bans =
      ⟨42, (bloxlinkResolve envTok.bloxlink).1, "raiding", 7, none⟩ ::
        db0.bans.filter (fun b => b.discord_user_id != 42)) ∧
    ((global_ban envTok [gA, gU] db0 1 42 "raiding" 7 none).2.1.cases.length =
      db0.cases.length + 1) ∧
    ((global_ban envTok [gA, gU] db0 1 42 "raiding" 7 none).2.2 =
      [Ev.bloxlinkLookup 42, Ev.lockAcquire, Ev.dmSend 42, Ev.dbAddBan 42,
       Ev.dbAddCase 42] ++ (banFanout 42 "raiding" [gA, gU]).2 ++ [Ev.lockRelease]) :=
  global_ban_no_rollback envTok [gA, gU] db0 1 42 "raiding" 7 "tok" rfl (by decide)

end GlobalBan
